import Mathlib

/-!
Shallow embedding of the logout/session-teardown module of the Keybase
client (`go/libkb/logout.go`, plus its legacy variant), together with
theorems settling the specified properties of `CanLogout`,
`LogoutUsernameWithOptions` and `LogoutSelfCheck`.

Go collaborators that are opaque to this module (the identity check,
the random-password query, the secret store, the config loader, the
UPAK loader and the self-check HTTP endpoint) are modelled as oracle
fields of an `Env` record: each oracle fixes the outcome the collaborator
returns during one run.  Mutable process state (the active device, the
secret store contents, the `switchedUsers` retention map) lives in a
`GState` record, and each embedded function additionally emits a trace of
`Event`s recording which collaborator calls it performed, so that
"hook X was never invoked" claims are statable.
-/

namespace Keybase

/-- `KeychainMode` from Go: which backend holds the session secret.
`KeychainModeNone` is the zero value; `KeychainModeOS` means the OS
keychain holds the secret. -/
inductive KeychainMode where
  | KeychainModeNone
  | KeychainModeOS
deriving DecidableEq, Repr

/-- `keybase1.CanLogoutRes`: the decision record returned by `CanLogout`.
Field defaults are the Go zero values of the struct. -/
structure CanLogoutRes where
  CanLogout : Bool := false
  Reason : String := ""
  SetPassphrase : Bool := false
deriving DecidableEq, Repr

/-- The classified error outcomes of `CheckCurrentUIDDeviceID`.  The first
five constructors are the concrete error types the `switch` in `CanLogout`
recognizes as stale local state; `other` stands for any other error
(e.g. a connectivity failure), carrying its message. -/
inductive CheckIDError where
  | deviceNotFound
  | userNotFound
  | keyRevoked
  | noDevice
  | noUID
  | other (msg : String)
deriving DecidableEq, Repr

/-- Whether an error of `CheckCurrentUIDDeviceID` is in the recognized
stale-local-state class (the five named error types of the `switch`). -/
def CheckIDError.isStale : CheckIDError → Bool
  | .other _ => false
  | _ => true

/-- The inputs `CanLogout` consults: the active-device snapshot
(`Valid()`, `KeychainMode()`) and the outcomes of its two collaborator
calls (`CheckCurrentUIDDeviceID`, where `none` means success, and
`LoadHasRandomPw`, which returns a flag or an error). -/
structure Session where
  valid : Bool := false
  keychainMode : KeychainMode := .KeychainModeNone
  checkUIDDeviceID : Option CheckIDError := none
  loadHasRandomPw : Except String Bool := .ok false
deriving Repr

/-- The tail of `CanLogout` after the identity check: query
`LoadHasRandomPw` and decide.  A query error denies citing inability to
confirm the passphrase state; flag `true` denies with
`SetPassphrase = true`; flag `false` permits. -/
def canLogoutAfterCheck (s : Session) : CanLogoutRes :=
  match s.loadHasRandomPw with
  | .error msg =>
    { CanLogout := false
      Reason := "We could not ensure that your account has a passphrase: " ++ msg }
  | .ok true =>
    { CanLogout := false
      SetPassphrase := true
      Reason := "You signed up without a password and need to set a password first" }
  | .ok false => { CanLogout := true }

/-- `CanLogout` from `logout.go`: permit when no valid device is loaded;
permit when the keychain mode is not the OS keychain; permit on a
recognized stale-state identity error; otherwise fall through to the
random-password query (`canLogoutAfterCheck`). -/
def CanLogout (s : Session) : CanLogoutRes :=
  if !s.valid then { CanLogout := true }
  else if s.keychainMode = KeychainMode.KeychainModeNone then { CanLogout := true }
  else
    match s.checkUIDDeviceID with
    | some e => if e.isStale then { CanLogout := true } else canLogoutAfterCheck s
    | none => canLogoutAfterCheck s

/-- `LogoutOptions` from `logout.go`.  `Force` is declared but never read
by the logout logic. -/
structure LogoutOptions where
  KeepSecrets : Bool := false
  Force : Bool := false
deriving DecidableEq, Repr

/-- Outcomes of the fallible collaborators consulted during one run of the
logout module, fixed per run: the two inputs of `CanLogout`, plus
`ActiveDevice.ClearGetKeychainMode`, `SecretStore.ClearSecret`,
`ConfigReload`, `GetUPAKLoader().OnLogout` (`none` = success), and the
`selfcheck` endpoint (outer `error` = transport failure of `API.Post`,
inner `error` = failure of `AtKey("logout").GetBool`). -/
structure Env where
  checkUIDDeviceIDErr : Option CheckIDError := none
  loadHasRandomPw : Except String Bool := .ok false
  clearGetKeychainModeErr : Option String := none
  clearSecretErr : Option String := none
  configReloadErr : Option String := none
  upakOnLogoutErr : Option String := none
  selfCheckResponse : Except String (Except String Bool) := .ok (.ok false)
deriving Repr

/-- The mutable process state the logout module reads and writes: the
active-device snapshot (`Valid()`, `Username()`, `UID()`, `DeviceID()`,
keychain mode), whether `g.secretStore` is configured (non-nil), the set
of usernames with a stored secret, and the `g.switchedUsers` retention
map (modelled as the list of its keys, duplicate-free by construction).
A `NormalizedUsername` is a `String`; the nil username is `""`. -/
structure GState where
  activeValid : Bool := false
  activeUsername : String := ""
  uid : String := ""
  deviceID : String := ""
  keychainMode : KeychainMode := .KeychainModeNone
  keychainModeCleared : Bool := false
  secretStoreConfigured : Bool := false
  secrets : List String := []
  switchedUsers : List String := []
deriving DecidableEq, Repr

/-- Observable collaborator calls performed during a run; "hook X is never
invoked" properties are stated as absence of the event from the trace. -/
inductive Event where
  | evalCanLogout
  | clearKeychainMode
  | clearSigchainGuard
  | callLogoutHooks
  | clearPerUserKeyring
  | flushCaches
  | clearSecret (u : String)
  | addSwitchedUser (u : String)
  | removeSwitchedUser (u : String)
  | configReload
  | notifyLogout
  | featureFlagsClear
  | identifyDispatchOnLogout
  | identify3OnLogout
  | upakOnLogout
  | pegboardOnLogout
  | selfCheckPost
deriving DecidableEq, Repr

/-- `NormalizedUsername.IsNil`: the nil username is the empty string. -/
def IsNil (u : String) : Bool := u == ""

/-- Go map-key insertion `g.switchedUsers[username] = true`. -/
def insertUser (u : String) (l : List String) : List String :=
  if u ∈ l then l else u :: l

/-- Go map-key deletion `delete(g.switchedUsers, username)` (and erasure
of a stored secret): removes every occurrence of the key. -/
def removeUser (u : String) (l : List String) : List String :=
  l.filter (fun x => x ≠ u)

/-- The `Session` snapshot `CanLogout` sees when invoked from inside the
logout flow with environment `env` and state `st`. -/
def sessionOf (env : Env) (st : GState) : Session :=
  { valid := st.activeValid
    keychainMode := st.keychainMode
    checkUIDDeviceID := env.checkUIDDeviceIDErr
    loadHasRandomPw := env.loadHasRandomPw }

/-- `MetaContext#logoutSecretStore` from `logout.go`: no-op when no secret
store is configured or the username is nil; when `noKillSecrets`, record
the username in `switchedUsers` and leave the secret alone; otherwise call
`ClearSecret` and, only if it succeeded, delete the username from
`switchedUsers` (a failure is logged and returns). -/
def logoutSecretStore (env : Env) (username : String) (noKillSecrets : Bool)
    (st : GState) : GState × List Event :=
  if !st.secretStoreConfigured || IsNil username then (st, [])
  else if noKillSecrets then
    ({ st with switchedUsers := insertUser username st.switchedUsers },
     [.addSwitchedUser username])
  else
    match env.clearSecretErr with
    | some _ => (st, [.clearSecret username])
    | none =>
      ({ st with
          secrets := removeUser username st.secrets
          switchedUsers := removeUser username st.switchedUsers },
       [.clearSecret username, .removeSwitchedUser username])

/-- `ActiveDevice.ClearGetKeychainMode`.  Modelled from the spec: the
function body lives outside this module; per the spec it reads and clears
the active credential-storage mode, and may fail, in which case
`LogoutUsernameWithOptions` returns its error.  On success it yields the
prior mode and resets the stored mode. -/
def clearGetKeychainMode (env : Env) (st : GState) :
    Except String KeychainMode × GState :=
  match env.clearGetKeychainModeErr with
  | some e => (.error e, st)
  | none =>
    (.ok st.keychainMode,
     { st with keychainMode := .KeychainModeNone, keychainModeCleared := true })

/-- The teardown sequence of `LogoutUsernameWithOptions` after the policy
gate: read-and-clear the keychain mode (fatal on error), clear the
sigchain guard, run the logout hooks, clear the per-user keyring, flush
caches, run the secret-store pass when the read mode was the OS keychain,
reload config (non-fatal), notify, clear feature flags, reset the two
identify-pipeline states, run the UPAK loader hook (fatal on error), and
finally the Pegboard hook. -/
def logoutTeardown (env : Env) (username : String) (options : LogoutOptions)
    (st : GState) : Except String Unit × GState × List Event :=
  match clearGetKeychainMode env st with
  | (.error e, st1) => (.error e, st1, [])
  | (.ok keychainMode, st1) =>
    let evs0 : List Event :=
      [.clearKeychainMode, .clearSigchainGuard, .callLogoutHooks,
       .clearPerUserKeyring, .flushCaches]
    let p :=
      if keychainMode = KeychainMode.KeychainModeOS then
        logoutSecretStore env username options.KeepSecrets st1
      else (st1, [])
    let evs2 : List Event :=
      [.configReload, .notifyLogout, .featureFlagsClear,
       .identifyDispatchOnLogout, .identify3OnLogout, .upakOnLogout]
    match env.upakOnLogoutErr with
    | some e => (.error e, p.1, evs0 ++ p.2 ++ evs2)
    | none => (.ok (), p.1, evs0 ++ p.2 ++ evs2 ++ [.pegboardOnLogout])

/-- `MetaContext#LogoutUsernameWithOptions`: when `KeepSecrets` is false,
evaluate `CanLogout` first and return `Cannot log out: <reason>` on a
denial, mutating nothing; otherwise (or when `KeepSecrets` is true,
skipping the check) run the teardown sequence. -/
def LogoutUsernameWithOptions (env : Env) (username : String)
    (options : LogoutOptions) (st : GState) :
    Except String Unit × GState × List Event :=
  if options.KeepSecrets then
    logoutTeardown env username options st
  else
    let res := CanLogout (sessionOf env st)
    if !res.CanLogout then
      (.error ("Cannot log out: " ++ res.Reason), st, [.evalCanLogout])
    else
      let t := logoutTeardown env username options st
      (t.1, t.2.1, .evalCanLogout :: t.2.2)

/-- `MetaContext#LogoutWithOptions`: logout of the active username. -/
def LogoutWithOptions (env : Env) (options : LogoutOptions) (st : GState) :
    Except String Unit × GState × List Event :=
  LogoutUsernameWithOptions env st.activeUsername options st

/-- `MetaContext#LogoutKillSecrets`. -/
def LogoutKillSecrets (env : Env) (st : GState) :
    Except String Unit × GState × List Event :=
  LogoutWithOptions env { KeepSecrets := false } st

/-- `MetaContext#LogoutKeepSecrets`. -/
def LogoutKeepSecrets (env : Env) (st : GState) :
    Except String Unit × GState × List Event :=
  LogoutWithOptions env { KeepSecrets := true } st

/-- `MetaContext#LogoutSelfCheck`: no-op success without a uid or device
id; otherwise post to the `selfcheck` endpoint, propagate a transport or
parse error verbatim, and on verdict `true` run `LogoutKillSecrets`. -/
def LogoutSelfCheck (env : Env) (st : GState) :
    Except String Unit × GState × List Event :=
  if IsNil st.uid then (.ok (), st, [])
  else if IsNil st.deviceID then (.ok (), st, [])
  else
    match env.selfCheckResponse with
    | .error e => (.error e, st, [.selfCheckPost])
    | .ok body =>
      match body with
      | .error e => (.error e, st, [.selfCheckPost])
      | .ok logout =>
        if logout then
          let t := LogoutKillSecrets env st
          (t.1, t.2.1, .selfCheckPost :: t.2.2)
        else (.ok (), st, [.selfCheckPost])

/-- `MetaContext#logoutSecretStore` of the legacy variant
(`LogoutUsernameWithSecretKill` era): identical body except the flag is
`killSecrets`, with the retention branch taken when it is false. -/
def logoutSecretStoreLegacy (env : Env) (username : String)
    (killSecrets : Bool) (st : GState) : GState × List Event :=
  if !st.secretStoreConfigured || IsNil username then (st, [])
  else if !killSecrets then
    ({ st with switchedUsers := insertUser username st.switchedUsers },
     [.addSwitchedUser username])
  else
    match env.clearSecretErr with
    | some _ => (st, [.clearSecret username])
    | none =>
      ({ st with
          secrets := removeUser username st.secrets
          switchedUsers := removeUser username st.switchedUsers },
       [.clearSecret username, .removeSwitchedUser username])

/-- Whether the identity check returned a recognized stale-state error,
making `CanLogout` permit without consulting the password flag. -/
def staleExempt (s : Session) : Bool :=
  match s.checkUIDDeviceID with
  | some e => e.isStale
  | none => false

lemma stringAppendNeEmpty (a b : String) (h : 0 < a.length) : a ++ b ≠ "" := by
  intro hc
  have hl : a.length + b.length = 0 := by
    have hlen := congrArg String.length hc
    simpa [String.length_append] using hlen
  omega

/-- A session whose identity check succeeds but whose random-password
query fails (e.g. offline with a cold cache), on an OS-keychain device. -/
def cexSessionC1 : Session :=
  { valid := true
    keychainMode := .KeychainModeOS
    checkUIDDeviceID := none
    loadHasRandomPw := .error "network failure" }

/-- C1 counterexample: on `cexSessionC1` the stale-state exemption does
not apply, yet `CanLogout` denies although the account's password is not
server-flagged as random — the query merely errored.  So denial is not
equivalent to "OS-backed and password flagged random". -/
theorem CanLogout_denies_though_password_not_flagged_random :
    staleExempt cexSessionC1 = false ∧
    ¬(((CanLogout cexSessionC1).CanLogout = false) ↔
      (cexSessionC1.keychainMode = KeychainMode.KeychainModeOS ∧
       cexSessionC1.loadHasRandomPw = Except.ok true)) := by
  refine ⟨rfl, fun h => ?_⟩
  have h2 := (h.mp rfl).2
  exact Except.noConfusion h2

/-- C1 amended: `CanLogout` denies iff a valid credential is loaded, the
keychain mode is the OS keychain, the identity check did not return a
recognized stale-state error, and the random-password query either
reported the flag as set or itself errored. -/
theorem CanLogout_denies_iff (s : Session) :
    (CanLogout s).CanLogout = false ↔
      (s.valid = true ∧ s.keychainMode = KeychainMode.KeychainModeOS ∧
       staleExempt s = false ∧
       (s.loadHasRandomPw = Except.ok true ∨
        ∃ m, s.loadHasRandomPw = Except.error m)) := by
  obtain ⟨valid, km, chk, pw⟩ := s
  simp only [CanLogout, canLogoutAfterCheck, staleExempt]
  cases valid <;> cases km <;> simp
  cases chk with
  | some e =>
    cases he : e.isStale <;> simp [he]
    cases pw with
    | error m => simp
    | ok b => cases b <;> simp
  | none =>
    simp
    cases pw with
    | error m => simp
    | ok b => cases b <;> simp

/-- C1 witness: a concrete valid OS-keychain session whose password is
flagged random is denied. -/
theorem CanLogout_denies_iff_witness :
    (CanLogout { valid := true, keychainMode := .KeychainModeOS,
                 checkUIDDeviceID := none,
                 loadHasRandomPw := .ok true }).CanLogout = false :=
  (CanLogout_denies_iff _).mpr ⟨rfl, rfl, rfl, Or.inl rfl⟩

/-- C10: every denial carries a non-empty `Reason`, and `SetPassphrase`
is set only in the random-password denial: it forces a denial and forces
the query to have returned the flag as set (so it is never set in a
permit, nor in the query-error denial). -/
theorem CanLogout_reason_and_setPassphrase (s : Session) :
    ((CanLogout s).CanLogout = false → (CanLogout s).Reason ≠ "") ∧
    ((CanLogout s).SetPassphrase = true →
      (CanLogout s).CanLogout = false ∧
      s.loadHasRandomPw = Except.ok true) := by
  obtain ⟨valid, km, chk, pw⟩ := s
  have hReason : ∀ m : String,
      "We could not ensure that your account has a passphrase: " ++ m ≠ "" :=
    fun m => stringAppendNeEmpty _ m (by decide)
  cases valid with
  | false => simp [CanLogout]
  | true =>
    cases km with
    | KeychainModeNone => simp [CanLogout]
    | KeychainModeOS =>
      cases chk with
      | none =>
        cases pw with
        | error m =>
          refine ⟨fun _ => ?_, fun hsp => ?_⟩
          · simpa [CanLogout, canLogoutAfterCheck] using hReason m
          · exact absurd hsp (by simp [CanLogout, canLogoutAfterCheck])
        | ok b =>
          cases b with
          | false => simp [CanLogout, canLogoutAfterCheck]
          | true =>
            refine ⟨fun _ => ?_, fun _ => ⟨?_, rfl⟩⟩ <;>
              simp [CanLogout, canLogoutAfterCheck]
      | some e =>
        cases he : e.isStale with
        | true => simp [CanLogout, he]
        | false =>
          cases pw with
          | error m =>
            refine ⟨fun _ => ?_, fun hsp => ?_⟩
            · simpa [CanLogout, canLogoutAfterCheck, he] using hReason m
            · exact absurd hsp (by simp [CanLogout, canLogoutAfterCheck, he])
          | ok b =>
            cases b with
            | false => simp [CanLogout, canLogoutAfterCheck, he]
            | true =>
              refine ⟨fun _ => ?_, fun _ => ⟨?_, rfl⟩⟩ <;>
                simp [CanLogout, canLogoutAfterCheck, he]

/-- C10 witness: the random-password denial at a concrete session has a
non-empty reason. -/
theorem CanLogout_reason_and_setPassphrase_witness :
    (CanLogout { valid := true, keychainMode := .KeychainModeOS,
                 checkUIDDeviceID := none,
                 loadHasRandomPw := .ok true }).Reason ≠ "" :=
  (CanLogout_reason_and_setPassphrase _).1 rfl

/-- C9: the legacy secret-store helper taking `killSecrets` and the
current helper taking `noKillSecrets` are the same function under the
parameter mapping `noKillSecrets = not killSecrets`: identical final
store state and identical collaborator calls. -/
theorem logoutSecretStore_legacy_equiv (env : Env) (u : String) (b : Bool)
    (st : GState) :
    logoutSecretStoreLegacy env u b st = logoutSecretStore env u (!b) st := by
  cases b <;> rfl

/-- C8: `Force` is never read, so flipping it changes neither the result,
nor the final state, nor the trace of collaborator calls. -/
theorem Force_has_no_effect (env : Env) (u : String) (k : Bool)
    (st : GState) :
    LogoutUsernameWithOptions env u { KeepSecrets := k, Force := true } st =
    LogoutUsernameWithOptions env u { KeepSecrets := k, Force := false } st := by
  rfl

lemma logoutSecretStore_events (env : Env) (u : String) (k : Bool)
    (st : GState) :
    (logoutSecretStore env u k st).2 = [] ∨
    (logoutSecretStore env u k st).2 = [.addSwitchedUser u] ∨
    (logoutSecretStore env u k st).2 = [.clearSecret u] ∨
    (logoutSecretStore env u k st).2 = [.clearSecret u, .removeSwitchedUser u] := by
  unfold logoutSecretStore
  split
  · exact Or.inl rfl
  · split
    · exact Or.inr (Or.inl rfl)
    · match env.clearSecretErr with
      | some _ => exact Or.inr (Or.inr (Or.inl rfl))
      | none => exact Or.inr (Or.inr (Or.inr rfl))

lemma evalCanLogout_not_in_secretStore (env : Env) (u : String) (k : Bool)
    (st : GState) :
    Event.evalCanLogout ∉ (logoutSecretStore env u k st).2 := by
  rcases logoutSecretStore_events env u k st with h | h | h | h <;> simp [h]

lemma evalCanLogout_not_in_teardown (env : Env) (u : String)
    (options : LogoutOptions) (st : GState) :
    Event.evalCanLogout ∉ (logoutTeardown env u options st).2.2 := by
  rcases henv : env.clearGetKeychainModeErr with _ | e
  · rcases hu : env.upakOnLogoutErr with _ | e2 <;>
      rcases hm : st.keychainMode with _ | _ <;>
      simp [logoutTeardown, clearGetKeychainMode, henv, hu, hm,
            evalCanLogout_not_in_secretStore]
  · simp [logoutTeardown, clearGetKeychainMode, henv]

/-- C2: with `KeepSecrets = false`, a policy denial makes
`LogoutUsernameWithOptions` return an error carrying the policy's reason
with the state returned exactly as it was — no mode clear, no hook, no
secret-store or retention-set change — and with `KeepSecrets = true` the
policy is never evaluated at all. -/
theorem logout_denial_is_inert (env : Env) (st : GState) (u : String)
    (options : LogoutOptions) :
    (options.KeepSecrets = false →
      (CanLogout (sessionOf env st)).CanLogout = false →
      LogoutUsernameWithOptions env u options st =
        (Except.error ("Cannot log out: " ++ (CanLogout (sessionOf env st)).Reason),
         st, [Event.evalCanLogout])) ∧
    (options.KeepSecrets = true →
      Event.evalCanLogout ∉ (LogoutUsernameWithOptions env u options st).2.2) := by
  constructor
  · intro hk hd
    simp [LogoutUsernameWithOptions, hk, hd]
  · intro hk
    simp only [LogoutUsernameWithOptions, hk, if_pos]
    exact evalCanLogout_not_in_teardown env u options st

/-- C2 witness: a concrete denied run (valid OS-keychain session with a
random password) returns the denial error and the untouched state, and a
concrete keep-secrets run never evaluates the policy. -/
theorem logout_denial_is_inert_witness :
    (LogoutUsernameWithOptions
        { loadHasRandomPw := .ok true } "alice" { KeepSecrets := false }
        { activeValid := true, activeUsername := "alice",
          keychainMode := .KeychainModeOS, secretStoreConfigured := true } =
      (Except.error
        ("Cannot log out: " ++
          "You signed up without a password and need to set a password first"),
       { activeValid := true, activeUsername := "alice",
         keychainMode := .KeychainModeOS, secretStoreConfigured := true },
       [Event.evalCanLogout])) ∧
    Event.evalCanLogout ∉
      (LogoutUsernameWithOptions { loadHasRandomPw := .ok true } "alice"
        { KeepSecrets := true }
        { activeValid := true, activeUsername := "alice",
          keychainMode := .KeychainModeOS,
          secretStoreConfigured := true }).2.2 :=
  ⟨(logout_denial_is_inert _ _ _ _).1 rfl rfl,
   (logout_denial_is_inert _ _ _ _).2 rfl⟩

lemma logout_gate_pass (env : Env) (u : String) (options : LogoutOptions)
    (st : GState)
    (h : options.KeepSecrets = true ∨
         (CanLogout (sessionOf env st)).CanLogout = true) :
    (LogoutUsernameWithOptions env u options st).1 =
      (logoutTeardown env u options st).1 ∧
    (LogoutUsernameWithOptions env u options st).2.1 =
      (logoutTeardown env u options st).2.1 ∧
    ((LogoutUsernameWithOptions env u options st).2.2 =
        (logoutTeardown env u options st).2.2 ∨
     (LogoutUsernameWithOptions env u options st).2.2 =
        .evalCanLogout :: (logoutTeardown env u options st).2.2) := by
  cases hk : options.KeepSecrets with
  | true => simp [LogoutUsernameWithOptions, hk]
  | false =>
    have hcan : (CanLogout (sessionOf env st)).CanLogout = true := by
      rcases h with h | h
      · rw [hk] at h; exact absurd h (by simp)
      · exact h
    simp [LogoutUsernameWithOptions, hk, hcan]

lemma logoutSecretStore_state (env : Env) (u : String) (k : Bool)
    (st : GState) :
    (logoutSecretStore env u k st).1.secretStoreConfigured =
      st.secretStoreConfigured ∧
    (logoutSecretStore env u k st).1.keychainMode = st.keychainMode := by
  unfold logoutSecretStore
  split
  · exact ⟨rfl, rfl⟩
  · split
    · exact ⟨rfl, rfl⟩
    · match env.clearSecretErr with
      | some _ => exact ⟨rfl, rfl⟩
      | none => exact ⟨rfl, rfl⟩

lemma logoutSecretStore_called (env : Env) (u : String) (k : Bool)
    (st : GState) (hs : st.secretStoreConfigured = true) (hu : u ≠ "") :
    (k = true →
      logoutSecretStore env u k st =
        ({ st with switchedUsers := insertUser u st.switchedUsers },
         [.addSwitchedUser u])) ∧
    (k = false → Event.clearSecret u ∈ (logoutSecretStore env u k st).2) := by
  have hnil : IsNil u = false := by simp [IsNil, hu]
  constructor
  · intro hk
    simp [logoutSecretStore, hs, hnil, hk]
  · intro hk
    rcases hc : env.clearSecretErr with _ | e <;>
      simp [logoutSecretStore, hs, hnil, hk, hc]

lemma teardown_upak_err (env : Env) (u : String) (options : LogoutOptions)
    (st : GState) (e : String)
    (h1 : env.clearGetKeychainModeErr = none)
    (h2 : env.upakOnLogoutErr = some e) :
    (logoutTeardown env u options st).1 = .error e ∧
    Event.pegboardOnLogout ∉ (logoutTeardown env u options st).2.2 ∧
    (∀ ev ∈ ([.clearKeychainMode, .clearSigchainGuard, .callLogoutHooks,
              .clearPerUserKeyring, .flushCaches, .configReload,
              .notifyLogout, .featureFlagsClear, .identifyDispatchOnLogout,
              .identify3OnLogout, .upakOnLogout] : List Event),
       ev ∈ (logoutTeardown env u options st).2.2) ∧
    (st.keychainMode = KeychainMode.KeychainModeOS →
     st.secretStoreConfigured = true → u ≠ "" →
      (options.KeepSecrets = true →
        Event.addSwitchedUser u ∈ (logoutTeardown env u options st).2.2) ∧
      (options.KeepSecrets = false →
        Event.clearSecret u ∈ (logoutTeardown env u options st).2.2)) := by
  rcases hm : st.keychainMode with _ | _
  · refine ⟨?_, ?_, ?_, ?_⟩ <;>
      simp [logoutTeardown, clearGetKeychainMode, h1, h2, hm]
  · have hpg : ∀ ev, ev ∈ (logoutSecretStore env u options.KeepSecrets
        { st with keychainMode := .KeychainModeNone,
                  keychainModeCleared := true }).2 →
        ev ≠ Event.pegboardOnLogout := by
      intro ev hev hc
      subst hc
      rcases logoutSecretStore_events env u options.KeepSecrets
          { st with keychainMode := .KeychainModeNone,
                    keychainModeCleared := true } with h | h | h | h <;>
        rw [h] at hev <;> simp at hev
    refine ⟨?_, ?_, ?_, ?_⟩
    · simp [logoutTeardown, clearGetKeychainMode, h1, h2, hm]
    · simp only [logoutTeardown, clearGetKeychainMode, h1, h2, hm]
      simp only [List.mem_append, List.mem_cons, List.not_mem_nil]
      intro hc
      rcases hc with hc | hc
      rcases hc with hc | hc
      · simp at hc
      · exact hpg _ hc rfl
      · simp at hc
    · intro ev hev
      simp [logoutTeardown, clearGetKeychainMode, h1, h2, hm]
      fin_cases hev <;> simp
    · intro _ hs hu
      have hcall := logoutSecretStore_called env u options.KeepSecrets
        { st with keychainMode := .KeychainModeNone,
                  keychainModeCleared := true } hs hu
      constructor
      · intro hk
        have := hcall.1 hk
        simp [logoutTeardown, clearGetKeychainMode, h1, h2, hm, this]
      · intro hk
        have := hcall.2 hk
        simp [logoutTeardown, clearGetKeychainMode, h1, h2, hm, this]

/-- C3: once the gate has passed and the keychain-mode clear succeeded, a
failing UPAK-loader hook makes `LogoutUsernameWithOptions` return exactly
that error, the Pegboard hook is never invoked, and every earlier step —
hooks, keyring clear, cache flush, config reload, notification,
feature-flag and both identify-pipeline resets, plus the secret-store
pass whenever its guard conditions hold — has already run. -/
theorem upak_hook_error_is_fatal (env : Env) (st : GState) (u : String)
    (options : LogoutOptions) (e : String)
    (h1 : env.clearGetKeychainModeErr = none)
    (h2 : env.upakOnLogoutErr = some e)
    (h3 : options.KeepSecrets = true ∨
          (CanLogout (sessionOf env st)).CanLogout = true) :
    (LogoutUsernameWithOptions env u options st).1 = .error e ∧
    Event.pegboardOnLogout ∉ (LogoutUsernameWithOptions env u options st).2.2 ∧
    (∀ ev ∈ ([.clearKeychainMode, .clearSigchainGuard, .callLogoutHooks,
              .clearPerUserKeyring, .flushCaches, .configReload,
              .notifyLogout, .featureFlagsClear, .identifyDispatchOnLogout,
              .identify3OnLogout, .upakOnLogout] : List Event),
       ev ∈ (LogoutUsernameWithOptions env u options st).2.2) ∧
    (st.keychainMode = KeychainMode.KeychainModeOS →
     st.secretStoreConfigured = true → u ≠ "" →
      (options.KeepSecrets = true →
        Event.addSwitchedUser u ∈
          (LogoutUsernameWithOptions env u options st).2.2) ∧
      (options.KeepSecrets = false →
        Event.clearSecret u ∈
          (LogoutUsernameWithOptions env u options st).2.2)) := by
  obtain ⟨hr, hst, htr⟩ := logout_gate_pass env u options st h3
  obtain ⟨tr, tpg, tev, tss⟩ := teardown_upak_err env u options st e h1 h2
  have hmem : ∀ ev : Event, ev ∈ (logoutTeardown env u options st).2.2 →
      ev ∈ (LogoutUsernameWithOptions env u options st).2.2 := by
    intro ev hev
    rcases htr with h | h <;> rw [h] <;> simp [hev]
  refine ⟨hr ▸ tr, ?_, ?_, ?_⟩
  · intro hc
    rcases htr with h | h <;> rw [h] at hc
    · exact tpg hc
    · rcases List.mem_cons.mp hc with h' | h'
      · exact Event.noConfusion h'
      · exact tpg h'
  · intro ev hev
    exact hmem ev (tev ev hev)
  · intro hkm hs hu
    exact ⟨fun hk => hmem _ ((tss hkm hs hu).1 hk),
           fun hk => hmem _ ((tss hkm hs hu).2 hk)⟩

/-- C3 witness: concrete failing UPAK hook on a keep-secrets logout. -/
theorem upak_hook_error_is_fatal_witness :
    (LogoutUsernameWithOptions { upakOnLogoutErr := some "upak down" }
        "alice" { KeepSecrets := true }
        { activeValid := true, activeUsername := "alice",
          keychainMode := .KeychainModeOS,
          secretStoreConfigured := true }).1 = .error "upak down" ∧
    Event.pegboardOnLogout ∉
      (LogoutUsernameWithOptions { upakOnLogoutErr := some "upak down" }
        "alice" { KeepSecrets := true }
        { activeValid := true, activeUsername := "alice",
          keychainMode := .KeychainModeOS,
          secretStoreConfigured := true }).2.2 := by
  obtain ⟨h1, h2, _, _⟩ := upak_hook_error_is_fatal
    { upakOnLogoutErr := some "upak down" }
    { activeValid := true, activeUsername := "alice",
      keychainMode := .KeychainModeOS, secretStoreConfigured := true }
    "alice" { KeepSecrets := true } "upak down" rfl rfl (Or.inl rfl)
  exact ⟨h1, h2⟩

lemma teardown_result (env : Env) (u : String) (options : LogoutOptions)
    (st : GState) :
    (env.clearGetKeychainModeErr = none → env.upakOnLogoutErr = none →
      (logoutTeardown env u options st).1 = .ok () ∧
      Event.pegboardOnLogout ∈ (logoutTeardown env u options st).2.2) ∧
    (∀ e, (logoutTeardown env u options st).1 = .error e →
      env.clearGetKeychainModeErr = some e ∨ env.upakOnLogoutErr = some e) := by
  rcases h1 : env.clearGetKeychainModeErr with _ | e1
  · rcases h2 : env.upakOnLogoutErr with _ | e2
    · constructor
      · intro _ _
        constructor <;> simp [logoutTeardown, clearGetKeychainMode, h1, h2]
      · intro e he
        simp [logoutTeardown, clearGetKeychainMode, h1, h2] at he
    · constructor
      · intro _ hc
        simp at hc
      · intro e he
        right
        simp [logoutTeardown, clearGetKeychainMode, h1, h2] at he
        rw [he]
  · constructor
    · intro hc
      simp at hc
    · intro e he
      left
      simp [logoutTeardown, clearGetKeychainMode, h1] at he
      rw [he]

/-- The environment of the C4 counterexample: the keychain-mode
read-and-clear fails. -/
def cexEnvC4 : Env := { clearGetKeychainModeErr := some "keychain clear failed" }

/-- The state of the C4 counterexample: a logged-in OS-keychain user. -/
def cexStC4 : GState :=
  { activeValid := true, activeUsername := "alice",
    keychainMode := .KeychainModeOS, secretStoreConfigured := true }

/-- C4 counterexample: when the credential-storage-mode read-and-clear
fails, `LogoutUsernameWithOptions` returns that error and the trace is
empty — no further teardown step runs — so this sub-step failure is
fatal, not non-fatal as claimed. -/
theorem keychainMode_clear_error_is_fatal :
    (LogoutUsernameWithOptions cexEnvC4 "alice" { KeepSecrets := true }
        cexStC4).1 = .error "keychain clear failed" ∧
    (LogoutUsernameWithOptions cexEnvC4 "alice" { KeepSecrets := true }
        cexStC4).2.2 = [] := by
  constructor <;> rfl

/-- C4 amended: once the policy gate has passed, the
credential-storage-mode read-and-clear and the UPAK-loader hook are the
only two steps whose failure makes `LogoutUsernameWithOptions` return an
error; when both succeed the call returns success and reaches the final
Pegboard hook no matter whether the secret erase or the config reload
failed (those failures are logged and teardown continues). -/
theorem only_two_fatal_steps (env : Env) (st : GState) (u : String)
    (options : LogoutOptions)
    (hgate : options.KeepSecrets = true ∨
             (CanLogout (sessionOf env st)).CanLogout = true) :
    (env.clearGetKeychainModeErr = none → env.upakOnLogoutErr = none →
      (LogoutUsernameWithOptions env u options st).1 = .ok () ∧
      Event.pegboardOnLogout ∈
        (LogoutUsernameWithOptions env u options st).2.2) ∧
    (∀ e, (LogoutUsernameWithOptions env u options st).1 = .error e →
      env.clearGetKeychainModeErr = some e ∨ env.upakOnLogoutErr = some e) := by
  obtain ⟨hr, hst, htr⟩ := logout_gate_pass env u options st hgate
  obtain ⟨hA, hB⟩ := teardown_result env u options st
  constructor
  · intro k1 k2
    obtain ⟨r1, r2⟩ := hA k1 k2
    refine ⟨by rw [hr]; exact r1, ?_⟩
    rcases htr with h | h <;> rw [h] <;> simp [r2]
  · intro e he
    rw [hr] at he
    exact hB e he

/-- C4 witness: with a failing secret erase and a failing config reload
but healthy fatal steps, a concrete kill-secrets logout still succeeds. -/
theorem only_two_fatal_steps_witness :
    (LogoutUsernameWithOptions
        { clearSecretErr := some "erase failed",
          configReloadErr := some "io error" }
        "alice" { KeepSecrets := false }
        { activeValid := true, activeUsername := "alice",
          keychainMode := .KeychainModeOS,
          secretStoreConfigured := true }).1 = .ok () :=
  ((only_two_fatal_steps
      { clearSecretErr := some "erase failed",
        configReloadErr := some "io error" }
      { activeValid := true, activeUsername := "alice",
        keychainMode := .KeychainModeOS, secretStoreConfigured := true }
      "alice" { KeepSecrets := false } (Or.inr rfl)).1 rfl rfl).1

lemma mem_insertUser (u : String) (l : List String) : u ∈ insertUser u l := by
  unfold insertUser
  split
  · assumption
  · exact List.mem_cons_self u l

lemma not_mem_removeUser (u : String) (l : List String) :
    u ∉ removeUser u l := by
  simp [removeUser]

/-- C5: on an OS-keychain state with a configured secret store and a
non-nil username, a keep-secrets logout puts the username in the
retention set without ever calling `ClearSecret` and leaves the stored
secrets untouched; and any subsequent kill-secrets logout (from any state
with the same guards, a permitting policy, and a succeeding erase) calls
`ClearSecret` for the username and leaves it out of the retention set. -/
theorem retention_invariant (env : Env) (st : GState) (u : String)
    (hu : u ≠ "")
    (hs : st.secretStoreConfigured = true)
    (hm : st.keychainMode = KeychainMode.KeychainModeOS)
    (h3 : env.clearGetKeychainModeErr = none) :
    (u ∈ (LogoutUsernameWithOptions env u { KeepSecrets := true }
            st).2.1.switchedUsers ∧
     Event.clearSecret u ∉
       (LogoutUsernameWithOptions env u { KeepSecrets := true } st).2.2 ∧
     (LogoutUsernameWithOptions env u { KeepSecrets := true }
        st).2.1.secrets = st.secrets) ∧
    (∀ env2 st2,
      st2.secretStoreConfigured = true →
      st2.keychainMode = KeychainMode.KeychainModeOS →
      env2.clearGetKeychainModeErr = none →
      env2.clearSecretErr = none →
      (CanLogout (sessionOf env2 st2)).CanLogout = true →
      Event.clearSecret u ∈
        (LogoutUsernameWithOptions env2 u { KeepSecrets := false }
          st2).2.2 ∧
      u ∉ (LogoutUsernameWithOptions env2 u { KeepSecrets := false }
            st2).2.1.switchedUsers) := by
  have hnil : IsNil u = false := by simp [IsNil, hu]
  constructor
  · refine ⟨?_, ?_, ?_⟩ <;>
      rcases hup : env.upakOnLogoutErr with _ | e2 <;>
      simp [LogoutUsernameWithOptions, logoutTeardown, clearGetKeychainMode,
            logoutSecretStore, IsNil, h3, hup, hs, hm, hnil, hu,
            mem_insertUser]
  · intro env2 st2 hs2 hm2 h32 hc2 hcan2
    constructor <;>
      rcases hup : env2.upakOnLogoutErr with _ | e2 <;>
      simp [LogoutUsernameWithOptions, logoutTeardown, clearGetKeychainMode,
            logoutSecretStore, IsNil, h32, hup, hs2, hm2, hnil, hu, hc2,
            hcan2, not_mem_removeUser, removeUser]

/-- A healthy environment for the C5 witness: every collaborator
succeeds and the random-password flag is unset. -/
def aliceEnv : Env := { }

/-- The C5 witness state before the keep-secrets logout. -/
def aliceKeepSt : GState :=
  { activeValid := true
    activeUsername := "alice"
    keychainMode := .KeychainModeOS
    secretStoreConfigured := true
    secrets := ["alice"] }

/-- The C5 witness state before the later kill-secrets logout: "alice"
is retained and logged back in on the OS keychain. -/
def aliceKillSt : GState :=
  { aliceKeepSt with switchedUsers := ["alice"] }

/-- C5 witness: a concrete keep-secrets logout for "alice" followed by a
concrete kill-secrets logout. -/
theorem retention_invariant_witness :
    "alice" ∈ (LogoutUsernameWithOptions aliceEnv "alice"
        { KeepSecrets := true } aliceKeepSt).2.1.switchedUsers ∧
    "alice" ∉ (LogoutUsernameWithOptions aliceEnv "alice"
        { KeepSecrets := false } aliceKillSt).2.1.switchedUsers := by
  have h := retention_invariant aliceEnv aliceKeepSt "alice"
    (by decide) rfl rfl rfl
  exact ⟨h.1.1, (h.2 aliceEnv aliceKillSt rfl rfl rfl rfl rfl).2⟩

/-- C6: with a uid and a device id present, a server verdict of `true`
makes `LogoutSelfCheck` perform exactly the kill-secrets logout of the
active user — same result, same final state, same trace after the
self-check post — and a verdict of `false` returns success with the
state untouched. -/
theorem selfcheck_invokes_kill_secrets (env : Env) (st : GState)
    (h1 : st.uid ≠ "") (h2 : st.deviceID ≠ "") :
    (env.selfCheckResponse = .ok (.ok true) →
      LogoutSelfCheck env st =
        ((LogoutUsernameWithOptions env st.activeUsername
            { KeepSecrets := false } st).1,
         (LogoutUsernameWithOptions env st.activeUsername
            { KeepSecrets := false } st).2.1,
         .selfCheckPost ::
           (LogoutUsernameWithOptions env st.activeUsername
              { KeepSecrets := false } st).2.2)) ∧
    (env.selfCheckResponse = .ok (.ok false) →
      LogoutSelfCheck env st = (.ok (), st, [.selfCheckPost])) := by
  constructor <;> intro hresp <;>
    simp [LogoutSelfCheck, IsNil, h1, h2, hresp, LogoutKillSecrets,
          LogoutWithOptions]

/-- C6 witness: a concrete `false` verdict is a no-op success. -/
theorem selfcheck_invokes_kill_secrets_witness :
    LogoutSelfCheck { selfCheckResponse := .ok (.ok false) }
        { uid := "u1", deviceID := "d1" } =
      (.ok (), { uid := "u1", deviceID := "d1" }, [.selfCheckPost]) :=
  (selfcheck_invokes_kill_secrets _ _ (by decide) (by decide)).2 rfl

lemma logoutSecretStore_nilUsername (env : Env) (k : Bool) (st : GState) :
    logoutSecretStore env "" k st = (st, []) := by
  simp [logoutSecretStore, IsNil]

/-- C7: when no session is active (no valid device, empty active
username) and the two fatal collaborators are healthy, `LogoutWithOptions`
returns success for every options value, never calls `ClearSecret`, and
leaves the retention set and the stored secrets unchanged. -/
theorem logout_no_active_user_noop (env : Env) (st : GState)
    (options : LogoutOptions)
    (h1 : st.activeValid = false) (h2 : st.activeUsername = "")
    (h3 : env.clearGetKeychainModeErr = none)
    (h4 : env.upakOnLogoutErr = none) :
    (LogoutWithOptions env options st).1 = .ok () ∧
    (∀ v, Event.clearSecret v ∉ (LogoutWithOptions env options st).2.2) ∧
    (LogoutWithOptions env options st).2.1.switchedUsers =
      st.switchedUsers ∧
    (LogoutWithOptions env options st).2.1.secrets = st.secrets := by
  have hcan : (CanLogout (sessionOf env st)).CanLogout = true := by
    simp [CanLogout, sessionOf, h1]
  unfold LogoutWithOptions
  rw [h2]
  cases hk : options.KeepSecrets <;>
    rcases hm : st.keychainMode with _ | _ <;>
    simp [LogoutUsernameWithOptions, hk, hcan, logoutTeardown,
          clearGetKeychainMode, h3, h4, hm, logoutSecretStore_nilUsername]

/-- The C7 witness state: nobody is logged in, yet the keychain mode is
still the OS mode and "bob" is a retained switched user. -/
def emptySessionSt : GState :=
  { keychainMode := .KeychainModeOS
    secretStoreConfigured := true
    switchedUsers := ["bob"] }

/-- C7 witness: a concrete logout with no active session. -/
theorem logout_no_active_user_noop_witness :
    (LogoutWithOptions aliceEnv { Force := true } emptySessionSt).1 =
      .ok () ∧
    (LogoutWithOptions aliceEnv { Force := true }
        emptySessionSt).2.1.switchedUsers = ["bob"] := by
  have h := logout_no_active_user_noop aliceEnv emptySessionSt
    { Force := true } rfl rfl rfl rfl
  exact ⟨h.1, h.2.2.1⟩

end Keybase
